import Mathlib

/-!
Verification of the FluidFramework build-tools release tooling.

This file embeds, in Lean, the parts of the repository that the verified
properties talk about:

* the "virtual patch" version scheme (`isVirtualPatch`,
  `bumpVirtualPatchVersion`, `fromVirtualPatchScheme`, `toVirtualPatchScheme`)
  from the version-tools package;
* the `getPreReleaseDependencies` report from `lib/package` utilities;
* the patch-release state machine (`ReleaseMachineDefinition`, written in FSL
  in `machines/releaseMachine.ts`);
* the state-dispatch loop (`StateMachineCommand.stateLoop`) and the check
  handlers of `CommandWithChecks.handleState` from `base.ts`.

Versions are modelled as their numeric `major.minor.patch` triple; prerelease
tags and build metadata are outside the model (none of the verified
properties mentions them).  Throwing code is modelled with `Except String`,
the thrown message being the source's message text.
-/

/-- The version bump types (`"major" | "minor" | "patch"`) from `bumpTypes.ts`. -/
inductive VersionBumpType where
  | major
  | minor
  | patch
deriving DecidableEq, Repr

/-- A parsed semver version: the numeric triple that `semver.parse` yields. -/
structure SemVer where
  major : Nat
  minor : Nat
  patch : Nat
deriving DecidableEq, Repr

/-- Embeds `isVirtualPatch` (part_000, lines 13-19): a version is in
virtual-patch form when its major is 0 and its patch is at least 1000. -/
def isVirtualPatch (version : SemVer) : Bool :=
  if version.major = 0 ∧ 1000 ≤ version.patch then true else false

/-- Embeds `bumpVirtualPatchVersion` (part_000, lines 30-67).  The input is
already parsed (the `semver.parse` failure path is outside the model); the
major-version precondition failure is the `Except.error` case, carrying the
source's message. -/
def bumpVirtualPatchVersion (versionBump : VersionBumpType) (virtualVersion : SemVer) :
    Except String SemVer :=
  if virtualVersion.major ≠ 0 then
    .error "Can only use virtual patches with major version 0"
  else
    match versionBump with
    | .major =>
        .ok { major := virtualVersion.major, minor := virtualVersion.minor + 1, patch := 1000 }
    | .minor =>
        let p := virtualVersion.patch + 1000
        .ok { major := virtualVersion.major, minor := virtualVersion.minor, patch := p - p % 1000 }
    | .patch =>
        .ok { major := virtualVersion.major, minor := virtualVersion.minor,
              patch := virtualVersion.patch + 1 }

/-- Embeds `fromVirtualPatchScheme` (part_000, lines 69-88): decode a
virtual-patch version back to the standard scheme. -/
def fromVirtualPatchScheme (parsedVersion : SemVer) : Except String SemVer :=
  if ¬ (isVirtualPatch parsedVersion = true) then
    .error "Version is not using the virtualPatch scheme"
  else
    .ok { major := parsedVersion.minor,
          minor := (parsedVersion.patch - parsedVersion.patch % 1000) / 1000,
          patch := parsedVersion.patch % 1000 }

/-- Embeds `toVirtualPatchScheme` (part_000, lines 90-115): encode a standard
version into the virtual-patch scheme; virtual-patch inputs are returned
unchanged. -/
def toVirtualPatchScheme (parsedVersion : SemVer) : SemVer :=
  if isVirtualPatch parsedVersion then parsedVersion
  else
    let patchBase := if parsedVersion.minor = 0 then 1 else parsedVersion.minor
    { major := 0, minor := parsedVersion.major,
      patch := patchBase * 1000 + parsedVersion.patch % 1000 }

/-- `isVirtualPatch` decides exactly `major = 0 ∧ patch ≥ 1000`. -/
theorem isVirtualPatch_iff (v : SemVer) :
    isVirtualPatch v = true ↔ (v.major = 0 ∧ 1000 ≤ v.patch) := by
  rw [isVirtualPatch]
  split <;> simp_all

/-- C3: for every parseable version with major 0, `bumpVirtualPatchVersion`
performs: major bump = minor+1 with patch reset to 1000; minor bump = patch
plus 1000 rounded down to a multiple of 1000; patch bump = patch+1; and on
the concrete examples 0.3.1000 -major-> 0.4.1000, 0.4.1000 -minor-> 0.4.2000,
0.4.2000 -patch-> 0.4.2001. -/
theorem bumpVirtualPatchVersion_major0_semantics (v : SemVer) (h : v.major = 0) :
    bumpVirtualPatchVersion .major v = .ok ⟨v.major, v.minor + 1, 1000⟩ ∧
    bumpVirtualPatchVersion .minor v =
      .ok ⟨v.major, v.minor, (v.patch + 1000) - (v.patch + 1000) % 1000⟩ ∧
    bumpVirtualPatchVersion .patch v = .ok ⟨v.major, v.minor, v.patch + 1⟩ ∧
    bumpVirtualPatchVersion .major ⟨0, 3, 1000⟩ = .ok ⟨0, 4, 1000⟩ ∧
    bumpVirtualPatchVersion .minor ⟨0, 4, 1000⟩ = .ok ⟨0, 4, 2000⟩ ∧
    bumpVirtualPatchVersion .patch ⟨0, 4, 2000⟩ = .ok ⟨0, 4, 2001⟩ := by
  refine ⟨?_, ?_, ?_, rfl, rfl, rfl⟩ <;> simp [bumpVirtualPatchVersion, h]

/-- Witness for C3 at the concrete input 0.3.1000. -/
theorem bumpVirtualPatchVersion_major0_semantics_witness :
    SemVer.major ⟨0, 3, 1000⟩ = 0 ∧
    bumpVirtualPatchVersion .patch ⟨0, 3, 1000⟩ = .ok ⟨0, 3, 1001⟩ :=
  ⟨rfl, (bumpVirtualPatchVersion_major0_semantics ⟨0, 3, 1000⟩ rfl).2.2.1⟩

/-- C4: `toVirtualPatchScheme` maps a non-virtual-patch version M.m.p to
0.M.(base*1000 + p % 1000) with base = m when m is nonzero and base = 1 when
m = 0, and is the identity on virtual-patch versions; concretely
1.0.5 becomes 0.1.1005 and 1.2.5 becomes 0.1.2005. -/
theorem toVirtualPatchScheme_spec (v : SemVer) :
    (isVirtualPatch v = false →
      toVirtualPatchScheme v =
        ⟨0, v.major, (if v.minor = 0 then 1 else v.minor) * 1000 + v.patch % 1000⟩) ∧
    (isVirtualPatch v = true → toVirtualPatchScheme v = v) ∧
    toVirtualPatchScheme ⟨1, 0, 5⟩ = ⟨0, 1, 1005⟩ ∧
    toVirtualPatchScheme ⟨1, 2, 5⟩ = ⟨0, 1, 2005⟩ := by
  refine ⟨fun h => ?_, fun h => ?_, rfl, rfl⟩ <;> simp [toVirtualPatchScheme, h]

/-- Witness for C4 at the concrete input 1.0.5. -/
theorem toVirtualPatchScheme_spec_witness :
    toVirtualPatchScheme ⟨1, 0, 5⟩ =
      ⟨0, 1, (if (0 : Nat) = 0 then 1 else 0) * 1000 + 5 % 1000⟩ :=
  (toVirtualPatchScheme_spec ⟨1, 0, 5⟩).1 rfl

/-- C8: for any input whose major is not 0, `bumpVirtualPatchVersion` fails
with the invalid-virtual-patch-base error for every bump type, returning no
version. -/
theorem bumpVirtualPatchVersion_major_ne0_error (b : VersionBumpType) (v : SemVer)
    (h : v.major ≠ 0) :
    bumpVirtualPatchVersion b v =
      .error "Can only use virtual patches with major version 0" := by
  simp [bumpVirtualPatchVersion, h]

/-- Witness for C8 at the concrete input 1.0.0 with a major bump. -/
theorem bumpVirtualPatchVersion_major_ne0_error_witness :
    SemVer.major ⟨1, 0, 0⟩ ≠ 0 ∧
    bumpVirtualPatchVersion .major ⟨1, 0, 0⟩ =
      .error "Can only use virtual patches with major version 0" :=
  ⟨by decide, bumpVirtualPatchVersion_major_ne0_error .major ⟨1, 0, 0⟩ (by decide)⟩

/-- C10: a minor virtual-patch bump on a major-0 version with patch p yields
patch 1000*(p/1000 + 1): a positive multiple of 1000, strictly greater than
p, with major and minor unchanged. -/
theorem bumpVirtualPatchVersion_minor_block (v : SemVer) (h : v.major = 0) :
    bumpVirtualPatchVersion .minor v =
      .ok { major := v.major, minor := v.minor, patch := 1000 * (v.patch / 1000 + 1) } ∧
    v.patch < 1000 * (v.patch / 1000 + 1) ∧
    (1000 * (v.patch / 1000 + 1)) % 1000 = 0 ∧
    0 < 1000 * (v.patch / 1000 + 1) := by
  refine ⟨?_, by omega, by omega, by omega⟩
  simp [bumpVirtualPatchVersion, h]
  omega

/-- Witness for C10 at the concrete input 0.4.1234. -/
theorem bumpVirtualPatchVersion_minor_block_witness :
    bumpVirtualPatchVersion .minor ⟨0, 4, 1234⟩ =
      .ok { major := 0, minor := 4, patch := 1000 * (1234 / 1000 + 1) } :=
  (bumpVirtualPatchVersion_minor_block ⟨0, 4, 1234⟩ rfl).1

/-- C2 counterexample: 1.0.5 is well formed, not in virtual-patch form and
has minor ≥ 0, yet the round trip returns 1.1.5, not 1.0.5 (the base-1
encoding used when minor = 0 is not invertible). -/
theorem virtualPatch_roundTrip_cex :
    isVirtualPatch ⟨1, 0, 5⟩ = false ∧
    fromVirtualPatchScheme (toVirtualPatchScheme ⟨1, 0, 5⟩) = .ok ⟨1, 1, 5⟩ ∧
    (⟨1, 1, 5⟩ : SemVer) ≠ ⟨1, 0, 5⟩ :=
  ⟨rfl, rfl, by decide⟩

/-- C2 as amended: the round trip
`fromVirtualPatchScheme (toVirtualPatchScheme v) = v` holds for every
well-formed non-virtual-patch version whose minor is at least 1 and whose
patch is below 1000. -/
theorem virtualPatch_roundTrip (v : SemVer) (hv : isVirtualPatch v = false)
    (hm : 1 ≤ v.minor) (hp : v.patch < 1000) :
    fromVirtualPatchScheme (toVirtualPatchScheme v) = .ok v := by
  obtain ⟨vMajor, vMinor, vPatch⟩ := v
  dsimp only at hv hm hp
  have hm0 : ¬ vMinor = 0 := by omega
  have htv : toVirtualPatchScheme ⟨vMajor, vMinor, vPatch⟩ =
      ⟨0, vMajor, vMinor * 1000 + vPatch % 1000⟩ := by
    simp [toVirtualPatchScheme, hv, hm0]
  rw [htv]
  have hvp : isVirtualPatch ⟨0, vMajor, vMinor * 1000 + vPatch % 1000⟩ = true := by
    rw [isVirtualPatch_iff]
    exact ⟨rfl, by dsimp only; omega⟩
  simp [fromVirtualPatchScheme, hvp, SemVer.mk.injEq]
  omega

/-- Witness for the amended C2 at the concrete input 1.2.5. -/
theorem virtualPatch_roundTrip_witness :
    isVirtualPatch ⟨1, 2, 5⟩ = false ∧ 1 ≤ SemVer.minor ⟨1, 2, 5⟩ ∧
    SemVer.patch ⟨1, 2, 5⟩ < 1000 ∧
    fromVirtualPatchScheme (toVirtualPatchScheme ⟨1, 2, 5⟩) = .ok ⟨1, 2, 5⟩ :=
  ⟨rfl, by decide, by decide, virtualPatch_roundTrip ⟨1, 2, 5⟩ rfl (by decide) (by decide)⟩

/-- The two actions of the release machines (`machines.ts`, `knownActions`). -/
inductive MAction where
  | success
  | failure
deriving DecidableEq, Fintype, Repr

/-- The states of `ReleaseMachineDefinition` (`machines/releaseMachine.ts`). -/
inductive RState where
  | Init
  | CheckShouldRunChecks
  | CheckValidReleaseGroup
  | CheckPolicy
  | CheckBranchName
  | CheckHasRemote
  | CheckBranchUpToDate
  | CheckNoPrereleaseDependencies
  | CheckIfCurrentReleaseGroupIsReleased
  | DoReleaseGroupBumpPatch
  | CheckShouldCommitBump
  | PromptToPRBump
  | Failed
  | DoBumpReleasedDependencies
  | CheckNoMorePrereleaseDependencies
  | CheckShouldCommitDeps
  | PromptToPRDeps
  | CheckNoPrereleaseDependencies2
  | PromptToReleaseDeps
  | CheckShouldCommitReleasedDepsBump
  | PromptToPRReleasedDepsBump
  | PromptToCommitBump
  | PromptToCommitDeps
  | PromptToRelease
deriving DecidableEq, Fintype, Repr

/-- The transition function of `ReleaseMachineDefinition`, read off the FSL
string in `machines/releaseMachine.ts` edge by edge; `none` means the action
is not available in that state. -/
def releaseTransition : RState → MAction → Option RState
  | .Init, .success => some .CheckShouldRunChecks
  | .CheckShouldRunChecks, .success => some .CheckValidReleaseGroup
  | .CheckShouldRunChecks, .failure => some .CheckNoPrereleaseDependencies
  | .CheckValidReleaseGroup, .success => some .CheckPolicy
  | .CheckValidReleaseGroup, .failure => some .Failed
  | .CheckPolicy, .success => some .CheckBranchName
  | .CheckPolicy, .failure => some .Failed
  | .CheckBranchName, .success => some .CheckHasRemote
  | .CheckBranchName, .failure => some .Failed
  | .CheckHasRemote, .success => some .CheckBranchUpToDate
  | .CheckHasRemote, .failure => some .Failed
  | .CheckBranchUpToDate, .success => some .CheckNoPrereleaseDependencies
  | .CheckBranchUpToDate, .failure => some .Failed
  | .CheckNoPrereleaseDependencies, .success => some .CheckIfCurrentReleaseGroupIsReleased
  | .CheckNoPrereleaseDependencies, .failure => some .DoBumpReleasedDependencies
  | .CheckIfCurrentReleaseGroupIsReleased, .success => some .DoReleaseGroupBumpPatch
  | .CheckIfCurrentReleaseGroupIsReleased, .failure => some .PromptToRelease
  | .DoReleaseGroupBumpPatch, .success => some .CheckShouldCommitBump
  | .DoReleaseGroupBumpPatch, .failure => some .Failed
  | .CheckShouldCommitBump, .success => some .PromptToPRBump
  | .CheckShouldCommitBump, .failure => some .PromptToCommitBump
  | .DoBumpReleasedDependencies, .success => some .CheckNoMorePrereleaseDependencies
  | .DoBumpReleasedDependencies, .failure => some .CheckNoPrereleaseDependencies2
  | .CheckNoMorePrereleaseDependencies, .success => some .CheckShouldCommitDeps
  | .CheckNoMorePrereleaseDependencies, .failure => some .PromptToReleaseDeps
  | .CheckShouldCommitDeps, .success => some .PromptToPRDeps
  | .CheckShouldCommitDeps, .failure => some .PromptToCommitDeps
  | .CheckNoPrereleaseDependencies2, .success => some .CheckShouldCommitReleasedDepsBump
  | .CheckNoPrereleaseDependencies2, .failure => some .PromptToReleaseDeps
  | .CheckShouldCommitReleasedDepsBump, .success => some .PromptToPRReleasedDepsBump
  | _, _ => none

/-- A state with no outgoing transition for either action. -/
def isTerminalState (s : RState) : Bool :=
  (releaseTransition s .success).isNone && (releaseTransition s .failure).isNone

/-- The user-facing `PromptTo*` terminal states of the release machine. -/
def isPromptState : RState → Bool
  | .PromptToPRBump | .PromptToPRDeps | .PromptToReleaseDeps
  | .PromptToPRReleasedDepsBump | .PromptToCommitBump | .PromptToCommitDeps
  | .PromptToRelease => true
  | _ => false

/-- Follow a sequence of actions through `releaseTransition`; `some t` when
every step is a transition the machine defines. -/
def runPath : RState → List MAction → Option RState
  | s, [] => some s
  | s, a :: rest =>
    match releaseTransition s a with
    | none => none
    | some t => runPath t rest

/-- A ranking of the release-machine states: every defined transition
strictly decreases it. -/
def stateRank : RState → Nat
  | .Init => 12
  | .CheckShouldRunChecks => 11
  | .CheckValidReleaseGroup => 10
  | .CheckPolicy => 9
  | .CheckBranchName => 8
  | .CheckHasRemote => 7
  | .CheckBranchUpToDate => 6
  | .CheckNoPrereleaseDependencies => 5
  | .CheckIfCurrentReleaseGroupIsReleased => 4
  | .DoReleaseGroupBumpPatch => 3
  | .CheckShouldCommitBump => 2
  | .DoBumpReleasedDependencies => 4
  | .CheckNoMorePrereleaseDependencies => 3
  | .CheckShouldCommitDeps => 2
  | .CheckNoPrereleaseDependencies2 => 3
  | .CheckShouldCommitReleasedDepsBump => 2
  | _ => 0

theorem releaseTransition_rank_lt :
    ∀ (s : RState) (a : MAction) (t : RState),
      releaseTransition s a = some t → stateRank t < stateRank s := by decide

theorem runPath_length_le :
    ∀ (acts : List MAction) (s t : RState),
      runPath s acts = some t → acts.length + stateRank t ≤ stateRank s := by
  intro acts
  induction acts with
  | nil =>
    intro s t h
    simp only [runPath, Option.some.injEq] at h
    subst h
    simp
  | cons a rest ih =>
    intro s t h
    simp only [runPath] at h
    cases hsa : releaseTransition s a with
    | none => rw [hsa] at h; exact absurd h (by simp)
    | some u =>
      rw [hsa] at h
      have h1 := ih u t h
      have h2 := releaseTransition_rank_lt s a u hsa
      simp only [List.length_cons]
      omega

/-- C5: the patch-release machine advances along the documented chain on
`success`; the six strict checks and the bump step fail to the terminal
`Failed` state; and `CheckShouldRunChecks` short-circuits to
`CheckNoPrereleaseDependencies` on `failure`. -/
theorem releaseMachine_transitions :
    releaseTransition .Init .success = some .CheckShouldRunChecks ∧
    releaseTransition .CheckShouldRunChecks .success = some .CheckValidReleaseGroup ∧
    releaseTransition .CheckValidReleaseGroup .success = some .CheckPolicy ∧
    releaseTransition .CheckPolicy .success = some .CheckBranchName ∧
    releaseTransition .CheckBranchName .success = some .CheckHasRemote ∧
    releaseTransition .CheckHasRemote .success = some .CheckBranchUpToDate ∧
    releaseTransition .CheckBranchUpToDate .success = some .CheckNoPrereleaseDependencies ∧
    releaseTransition .CheckNoPrereleaseDependencies .success =
      some .CheckIfCurrentReleaseGroupIsReleased ∧
    releaseTransition .CheckIfCurrentReleaseGroupIsReleased .success =
      some .DoReleaseGroupBumpPatch ∧
    releaseTransition .DoReleaseGroupBumpPatch .success = some .CheckShouldCommitBump ∧
    releaseTransition .CheckShouldCommitBump .success = some .PromptToPRBump ∧
    releaseTransition .CheckValidReleaseGroup .failure = some .Failed ∧
    releaseTransition .CheckPolicy .failure = some .Failed ∧
    releaseTransition .CheckBranchName .failure = some .Failed ∧
    releaseTransition .CheckHasRemote .failure = some .Failed ∧
    releaseTransition .CheckBranchUpToDate .failure = some .Failed ∧
    releaseTransition .DoReleaseGroupBumpPatch .failure = some .Failed ∧
    releaseTransition .CheckShouldRunChecks .failure =
      some .CheckNoPrereleaseDependencies ∧
    (∀ a, releaseTransition .Failed a = none) := by decide

/-- C9: every sequence of defined transitions from `Init` has length at most
12 (so the machine always reaches, in finitely many steps, a state with no
outgoing transitions — the graph has no cycles at all, the dependency-bump
sub-flow included), and the transition-free states are exactly `Failed` and
the `PromptTo*` states. -/
theorem releaseMachine_terminates :
    (∀ (acts : List MAction) (t : RState),
        runPath .Init acts = some t → acts.length ≤ 12) ∧
    (∀ s : RState, isTerminalState s = true ↔ (s = .Failed ∨ isPromptState s = true)) := by
  constructor
  · intro acts t h
    have h1 := runPath_length_le acts .Init t h
    simp only [stateRank] at h1
    omega
  · decide

/-- Witness for C9: the one-step success path from `Init`, and the terminal
state `Failed`. -/
theorem releaseMachine_terminates_witness :
    runPath .Init [MAction.success] = some RState.CheckShouldRunChecks ∧
    [MAction.success].length ≤ 12 ∧
    isTerminalState RState.Failed = true :=
  ⟨rfl, releaseMachine_terminates.1 [MAction.success] RState.CheckShouldRunChecks rfl,
    (releaseMachine_terminates.2 RState.Failed).mpr (Or.inl rfl)⟩

/-- The possible fates of `StateMachineCommand.stateLoop` (`base.ts`,
lines 239-249) within a given fuel bound: the handler called `this.exit()`
(modelled `exited`), the loop raised a fatal error via `this.error`
(modelled `fatal` with the message), or the fuel ran out with the loop
still going (`running`). -/
inductive LoopOutcome where
  | exited
  | fatal (msg : String)
  | running (state : String)
deriving DecidableEq, Repr

/-- Embeds `StateMachineCommand.stateLoop`.  A handler invocation is
modelled as `none` when it terminates the process (`this.exit()`), and
otherwise as the returned `handled` flag paired with the machine state
after the actions the handler posted.  Each iteration reads the current
state, invokes the handler, and raises `Unhandled state: <name>` when the
handler did not handle it; the fuel argument only bounds how many
iterations we unroll. -/
def stateLoop (handle : String → Option (Bool × String)) : Nat → String → LoopOutcome
  | 0, s => .running s
  | fuel + 1, s =>
    match handle s with
    | none => .exited
    | some (handled, next) =>
      if handled then stateLoop handle fuel next
      else .fatal ("Unhandled state: " ++ s)

/-- C7: whenever the handler reports the current state unhandled, the loop
raises a fatal error — for every remaining fuel, i.e. it never runs another
iteration — and the error message contains the state name verbatim. -/
theorem stateLoop_unhandled_fatal (handle : String → Option (Bool × String))
    (fuel : Nat) (s next : String) (h : handle s = some (false, next)) :
    stateLoop handle (fuel + 1) s = .fatal ("Unhandled state: " ++ s) ∧
    ∃ pre post, "Unhandled state: " ++ s = pre ++ s ++ post := by
  refine ⟨?_, "Unhandled state: ", "", by simp⟩
  simp [stateLoop, h]

/-- A handler that handles no state at all (and posts no action). -/
def neverHandles : String → Option (Bool × String) := fun s => some (false, s)

/-- Witness for C7: with a handler that reports `Init` unhandled, one loop
iteration ends in the fatal `Unhandled state: Init` error. -/
theorem stateLoop_unhandled_fatal_witness :
    neverHandles "Init" = some (false, "Init") ∧
    stateLoop neverHandles 1 "Init" = .fatal ("Unhandled state: " ++ "Init") :=
  ⟨rfl, (stateLoop_unhandled_fatal neverHandles 0 "Init" "Init" rfl).1⟩

/-- What one `CommandWithChecks.handleState` case does, observably: the
actions it posts into the machine, in order, and the warning and error
messages it logs. -/
structure HandlerEffects where
  actions : List MAction
  warnings : List String
  errors : List String
deriving DecidableEq, Repr

/-- Embeds the `CheckPolicy` case of `CommandWithChecks.handleState`
(`base.ts`, lines 353-365): both branches post `success`; the
`shouldCheckPolicy = false` branch logs the skip warning. -/
def handleCheckPolicy (shouldCheckPolicy : Bool) : HandlerEffects :=
  if shouldCheckPolicy then
    { actions := [.success],
      warnings := ["Automated policy check not yet implemented.",
                   "Run policy check manually and check in all fixes."],
      errors := [] }
  else
    { actions := [.success], warnings := ["Skipping policy check."], errors := [] }

/-- Embeds the `CheckBranchName` case of `CommandWithChecks.handleState`
(`base.ts`, lines 367-381): with the check enabled a failing branch-name
predicate posts `failure` (and, falling through, also the unconditional
trailing `success`); with the check disabled the predicate is skipped, a
warning is logged, and only `success` is posted. -/
def handleCheckBranchName (shouldCheckBranch : Bool) (branchNameOk : Bool)
    (branchName : String) : HandlerEffects :=
  if shouldCheckBranch then
    if !branchNameOk then
      { actions := [.failure, .success],
        warnings := [],
        errors := ["Branch name '" ++ branchName ++
                   "' isn't expected. You can skip this check with --no-branchCheck."] }
    else
      { actions := [.success], warnings := [], errors := [] }
  else
    { actions := [.success],
      warnings := ["Not checking if current branch is a release branch: " ++ branchName],
      errors := [] }

/-- Embeds the `CheckBranchUpToDate` case of `CommandWithChecks.handleState`
(`base.ts`, lines 394-415): with the check enabled an out-of-date branch
posts `failure` then the trailing `success`; with the check disabled the
predicate is skipped, a warning is logged, and `success` is posted. -/
def handleCheckBranchUpToDate (shouldCheckBranchUpdate : Bool) (isBranchUpToDate : Bool)
    (branchName remote : String) : HandlerEffects :=
  if shouldCheckBranchUpdate then
    if !isBranchUpToDate then
      { actions := [.failure, .success],
        warnings := [],
        errors := ["Local '" ++ branchName ++
                   "' branch not up to date with remote. Please pull from '" ++ remote ++ "'."] }
    else
      { actions := [.success], warnings := [], errors := [] }
  else
    { actions := [.success],
      warnings := ["Not checking if the branch is up-to-date with the remote."],
      errors := [] }

/-- Embeds the shared `CheckShouldCommitBump` / `CheckShouldCommitDeps` case
of `CommandWithChecks.handleState` (`base.ts`, lines 546-574): when
`shouldCommit` is false it posts `failure` and returns at once (no warning);
otherwise it creates the bump branch and commit (side effects outside this
model) and posts `success`. -/
def handleCheckShouldCommit (shouldCommit : Bool) : HandlerEffects :=
  if !shouldCommit then
    { actions := [.failure], warnings := [], errors := [] }
  else
    { actions := [.success], warnings := [], errors := [] }

/-- C6 counterexample: with `shouldCommit = false` the
`CheckShouldCommitBump`/`CheckShouldCommitDeps` handler posts the `failure`
action and logs no warning — not the `success`-plus-warning the claim
asserts for every flag-guarded check state. -/
theorem handleCheckShouldCommit_false_posts_failure :
    handleCheckShouldCommit false =
      { actions := [.failure], warnings := [], errors := [] } ∧
    HandlerEffects.actions { actions := [MAction.failure], warnings := [], errors := [] } ≠
      [MAction.success] ∧
    HandlerEffects.warnings { actions := [MAction.failure], warnings := [], errors := [] } = [] :=
  ⟨rfl, by decide, rfl⟩

/-- C6 as amended: for `CheckPolicy`, `CheckBranchName` and
`CheckBranchUpToDate`, a false `should*` flag makes the handler skip the
real predicate (its output does not depend on it), post exactly `success`,
and log a warning; for `CheckShouldCommitBump`/`CheckShouldCommitDeps`,
`shouldCommit = false` instead posts exactly `failure`, with no warning. -/
theorem checkHandlers_flag_false_behaviour :
    handleCheckPolicy false =
      { actions := [.success], warnings := ["Skipping policy check."], errors := [] } ∧
    (∀ (ok : Bool) (name : String),
      handleCheckBranchName false ok name =
        { actions := [.success],
          warnings := ["Not checking if current branch is a release branch: " ++ name],
          errors := [] }) ∧
    (∀ (upToDate : Bool) (branchName remote : String),
      handleCheckBranchUpToDate false upToDate branchName remote =
        { actions := [.success],
          warnings := ["Not checking if the branch is up-to-date with the remote."],
          errors := [] }) ∧
    handleCheckShouldCommit false =
      { actions := [.failure], warnings := [], errors := [] } := by
  refine ⟨rfl, fun ok name => rfl, fun upToDate branchName remote => rfl, rfl⟩

/-- A dependency entry (name and version range) as iterated from
`pkg.combinedDependencies`. -/
structure PkgDependency where
  name : String
  version : String
deriving DecidableEq, Repr

/-- The part of `semver.minVersion`'s result the code inspects: the
prerelease components of the minimum version of the range. -/
structure MinVersion where
  prerelease : List String
deriving DecidableEq, Repr

/-- A package known to the repo context: its name, the kind of its release
group (`monoRepo?.kind`, `none` for standalone packages) and its
dependencies. -/
structure RepoPackage where
  name : String
  monoRepo : Option String
  combinedDependencies : List PkgDependency
deriving DecidableEq, Repr

/-- The `releaseGroup` argument of `getPreReleaseDependencies`: a release
group kind or a standalone release package name (`isReleaseGroup`
distinguishes the two). -/
inductive ReleaseGroupOrPackage where
  | group (kind : String)
  | pkg (name : String)
deriving DecidableEq, Repr

/-- The slice of `Context` that `getPreReleaseDependencies` reads:
`repo.releaseGroups`, `fullPackageMap` and `packagesNotInReleaseGroup`. -/
structure RepoContext where
  releaseGroups : List (String × List RepoPackage)
  fullPackageMap : List (String × RepoPackage)
  packagesNotInReleaseGroup : ReleaseGroupOrPackage → List RepoPackage

/-- The report returned by `getPreReleaseDependencies` (part_008,
lines 649-654). -/
structure PreReleaseDependencies where
  releaseGroups : List String
  packages : List String
  isEmpty : Bool
deriving DecidableEq, Repr

/-- A JS `Set.add`: keep insertion order, never insert a duplicate. -/
def insertUnique (x : String) (xs : List String) : List String :=
  if x ∈ xs then xs else xs ++ [x]

/-- The inner loop of `getPreReleaseDependencies` (part_008, lines 691-718)
over one package's `combinedDependencies`, accumulating the
`(prereleaseGroups, prereleasePackages)` sets. -/
def scanDependencies (minVersion : String → Option MinVersion)
    (fullPackageMap : List (String × RepoPackage)) (depsToUpdate : List String) :
    List PkgDependency → List String × List String →
      Except String (List String × List String)
  | [], acc => .ok acc
  | d :: rest, (groups, pkgs) =>
    if d.name ∉ depsToUpdate then
      scanDependencies minVersion fullPackageMap depsToUpdate rest (groups, pkgs)
    else
      match minVersion d.version with
      | none => .error ("semver.minVersion was null: " ++ d.version ++ " (" ++ d.name ++ ")")
      | some minVer =>
        if 0 < minVer.prerelease.length then
          match List.lookup d.name fullPackageMap with
          | none => .error ("Can't find package in context: " ++ d.name)
          | some depPkg =>
            match depPkg.monoRepo with
            | none =>
              scanDependencies minVersion fullPackageMap depsToUpdate rest
                (groups, insertUnique depPkg.name pkgs)
            | some kind =>
              scanDependencies minVersion fullPackageMap depsToUpdate rest
                (insertUnique kind groups, pkgs)
        else
          scanDependencies minVersion fullPackageMap depsToUpdate rest (groups, pkgs)

/-- The outer loop of `getPreReleaseDependencies` over `packagesToCheck`. -/
def scanPackages (minVersion : String → Option MinVersion)
    (fullPackageMap : List (String × RepoPackage)) (depsToUpdate : List String) :
    List RepoPackage → List String × List String →
      Except String (List String × List String)
  | [], acc => .ok acc
  | p :: rest, acc =>
    match scanDependencies minVersion fullPackageMap depsToUpdate
        p.combinedDependencies acc with
    | .error e => .error e
    | .ok acc2 => scanPackages minVersion fullPackageMap depsToUpdate rest acc2

/-- Embeds `getPreReleaseDependencies` (part_008, lines 663-726).
`semver.minVersion` is a parameter (it is library code).  Note the final
record: the source computes
`isEmpty: prereleaseGroups.size > 0 || prereleasePackages.size > 0`. -/
def getPreReleaseDependencies (ctx : RepoContext) (minVersion : String → Option MinVersion)
    (releaseGroup : ReleaseGroupOrPackage) : Except String PreReleaseDependencies :=
  match (match releaseGroup with
    | .group g =>
      match List.lookup g ctx.releaseGroups with
      | none => .error ("Can't find release group in context: " ++ g)
      | some monorepoPackages =>
        .ok (monorepoPackages, (ctx.packagesNotInReleaseGroup releaseGroup).map (·.name))
    | .pkg n =>
      match List.lookup n ctx.fullPackageMap with
      | none => .error ("Can't find package in context: " ++ n)
      | some p =>
        .ok ([p], (ctx.packagesNotInReleaseGroup releaseGroup).map (·.name)) :
    Except String (List RepoPackage × List String)) with
  | .error e => .error e
  | .ok (packagesToCheck, depsToUpdate) =>
    match scanPackages minVersion ctx.fullPackageMap depsToUpdate
        packagesToCheck ([], []) with
    | .error e => .error e
    | .ok (prereleaseGroups, prereleasePackages) =>
      .ok { releaseGroups := prereleaseGroups,
            packages := prereleasePackages,
            isEmpty := decide (0 < prereleaseGroups.length) ||
                       decide (0 < prereleasePackages.length) }

/-- A release-group package with no dependencies at all. -/
def clientPackage : RepoPackage :=
  { name := "@fluidframework/example", monoRepo := some "client",
    combinedDependencies := [] }

/-- A repo context holding exactly the release group `client` with the one
dependency-free package. -/
def exampleContext : RepoContext :=
  { releaseGroups := [("client", [clientPackage])],
    fullPackageMap := [("@fluidframework/example", clientPackage)],
    packagesNotInReleaseGroup := fun _ => [] }

/-- C1: evaluating `getPreReleaseDependencies` on a release group with no
pre-release dependencies returns both sets empty yet `isEmpty = false`, and
in general the returned `isEmpty` equals the *disjunction of non-emptiness*
of the two sets — the code inverts the documented meaning of `isEmpty`
(true iff both sets are empty). -/
theorem getPreReleaseDependencies_isEmpty_inverted :
    getPreReleaseDependencies exampleContext (fun _ => some { prerelease := [] })
        (.group "client") =
      .ok { releaseGroups := [], packages := [], isEmpty := false } ∧
    (∀ (ctx : RepoContext) (minVersion : String → Option MinVersion)
        (rg : ReleaseGroupOrPackage) (r : PreReleaseDependencies),
      getPreReleaseDependencies ctx minVersion rg = .ok r →
        r.isEmpty = (decide (0 < r.releaseGroups.length) ||
                     decide (0 < r.packages.length))) := by
  refine ⟨rfl, ?_⟩
  intro ctx minVersion rg r h
  unfold getPreReleaseDependencies at h
  split at h
  · exact absurd h (by simp)
  · split at h
    · exact absurd h (by simp)
    · injection h with h2
      subst h2
      rfl

/-- Witness for C1's universally quantified part, discharged at the concrete
context of the failing input. -/
theorem getPreReleaseDependencies_isEmpty_inverted_witness :
    PreReleaseDependencies.isEmpty
        { releaseGroups := [], packages := [], isEmpty := false } =
      (decide (0 < List.length ([] : List String)) ||
       decide (0 < List.length ([] : List String))) :=
  getPreReleaseDependencies_isEmpty_inverted.2 exampleContext
    (fun _ => some { prerelease := [] }) (.group "client")
    { releaseGroups := [], packages := [], isEmpty := false }
    getPreReleaseDependencies_isEmpty_inverted.1
